import Mathlib

/-!
Verification of the rentme data pipeline (src/mlrent).

This file gives a shallow embedding of the dataframe cleaning in
`data_loader.py` and of the feature encoding, dataset-path resolution and
model evaluation in `ml.py`, and proves theorems about the documented
properties of those functions.

Modelling conventions:
* numeric cells are `Option ℚ`, where `none` is the pandas missing marker
  (NaN / pd.NA) and also stands for a value that `float(...)` or
  `pd.to_numeric` could not convert;
* a dataframe is a list of rows plus one column-presence flag per column
  that `clean_dataframe` references, so that the pandas `KeyError` raised
  on indexing an absent column is observable (`Except.error`);
* Python `str.strip` / `str.lower` are re-implemented over the character
  list (`pyStrip`, `pyLower`), covering ASCII plus the Cyrillic letters
  used in the provider alias table.
-/

/-- Characters removed by Python `str.strip()` (ASCII whitespace). -/
def isPySpace (c : Char) : Bool :=
  c = ' ' || c = '\t' || c = '\n' || c = '\r' || c = '\x0b' || c = '\x0c'

/-- Python `str.strip()`: drop whitespace from both ends. -/
def pyStrip (s : String) : String :=
  ⟨((s.data.dropWhile isPySpace).reverse.dropWhile isPySpace).reverse⟩

/-- Per-character lower-casing as Python `str.lower()` does it, for the
alphabets that occur in the repository (ASCII and Cyrillic). -/
def pyCharLower (c : Char) : Char :=
  let n := c.toNat
  if 65 ≤ n ∧ n ≤ 90 then Char.ofNat (n + 32)
  else if 0x410 ≤ n ∧ n ≤ 0x42F then Char.ofNat (n + 32)
  else if n = 0x401 then Char.ofNat 0x451
  else c

/-- Python `str.lower()`. -/
def pyLower (s : String) : String :=
  ⟨s.data.map pyCharLower⟩

/-- Floor of a rational as an integer (used by the quantile interpolation). -/
def ratFloor (q : ℚ) : ℤ :=
  q.num.fdiv (q.den : ℤ)

/-- Insert a value into an ascending-sorted list. -/
def insertSorted (x : ℚ) : List ℚ → List ℚ
  | [] => [x]
  | y :: ys => if x ≤ y then x :: y :: ys else y :: insertSorted x ys

/-- Ascending insertion sort (the order in which numpy/pandas rank the
values of a series before interpolating a quantile). -/
def sortAsc (xs : List ℚ) : List ℚ :=
  xs.foldr insertSorted []

/-- Linear-interpolation quantile of an ascending-sorted nonempty list,
exactly as `pandas.Series.quantile(q)` computes it: with `n` values the
rank is `h = q * (n - 1)`, and the result interpolates between the values
at positions `⌊h⌋` and `⌊h⌋ + 1`. -/
def quantileSorted (s : List ℚ) (q : ℚ) : ℚ :=
  let n : ℚ := (s.length : ℚ)
  let h : ℚ := q * (n - 1)
  let j : ℤ := ratFloor h
  let g : ℚ := h - (j : ℚ)
  let vj : ℚ := s.getD j.toNat 0
  let vj1 : ℚ := s.getD (j.toNat + 1) vj
  vj + g * (vj1 - vj)

/-- `pandas.Series.quantile`: missing values are skipped; the quantile of a
series with no remaining values is NaN (modelled as `none`). -/
def seriesQuantile (xs : List (Option ℚ)) (q : ℚ) : Option ℚ :=
  let vals := xs.filterMap id
  if vals.length = 0 then none
  else some (quantileSorted (sortAsc vals) q)

/-- `pandas.Series.median`: the 0.5 quantile with linear interpolation
(middle value for odd counts, mean of the two middle values for even). -/
def seriesMedian (xs : List (Option ℚ)) : Option ℚ :=
  seriesQuantile xs (1/2)

/-- Round half to even, as `Series.round()` (numpy rounding) does. -/
def roundHalfEven (x : ℚ) : ℤ :=
  let f : ℤ := ratFloor x
  let r : ℚ := x - (f : ℚ)
  if r < 1/2 then f
  else if r > 1/2 then f + 1
  else if f % 2 = 0 then f else f + 1

/-- One listing row with the columns referenced by `data_loader.py`.
Numeric cells are `Option ℚ` (`none` = missing marker). -/
structure Row where
  metro : String
  provider : String
  price : Option ℚ
  minutes : Option ℚ
  fee_percent : Option ℚ
  views : Option ℚ
  storey : Option ℚ
  storeys : Option ℚ
  rooms : Option ℚ
  total_area : Option ℚ
  living_area : Option ℚ
  kitchen_area : Option ℚ
deriving DecidableEq, Repr

/-- A dataframe: its rows plus one presence flag per column referenced by
`clean_dataframe`, so that `column in df` checks and `KeyError`s on absent
columns can be modelled. -/
structure Frame where
  hasMetro : Bool
  hasProvider : Bool
  hasPrice : Bool
  hasStorey : Bool
  hasStoreys : Bool
  hasRooms : Bool
  hasTotalArea : Bool
  hasLivingArea : Bool
  hasKitchenArea : Bool
  rows : List Row
deriving DecidableEq, Repr

/-- PROVIDER_ALIASES from data_loader.py (note: the table contains the key
"застройщик " with a trailing space, unreachable after stripping). -/
def providerAlias (s : String) : Option String :=
  if s = "agency" then some "agency"
  else if s = "агентство" then some "agency"
  else if s = "developer" then some "developer"
  else if s = "застройщик" then some "developer"
  else if s = "застройщик " then some "developer"
  else if s = "owner" then some "owner"
  else if s = "владелец" then some "owner"
  else if s = "realtor" then some "realtor"
  else none

/-- `_normalize_provider`, per row: strip, lower-case, map through the alias
table, keep the normalized text when no alias matches. -/
def normalizeProviderRow (r : Row) : Row :=
  let normalized := pyLower (pyStrip r.provider)
  { r with provider := (providerAlias normalized).getD normalized }

/-- The floor / rooms sanity block of `clean_dataframe` (lines 108-119):
null `storey` outside (0, 80], null `storeys` outside (0, 80], then null
`storey` when both are present and `storey > storeys`, and null `rooms`
outside (0, 10].  Missing values, for which the pandas comparisons are
False, are left untouched. -/
def nullFloorsRow (r : Row) : Row :=
  let storey1 : Option ℚ :=
    match r.storey with
    | some s => if s ≤ 0 ∨ s > 80 then none else some s
    | none => none
  let storeys1 : Option ℚ :=
    match r.storeys with
    | some t => if t ≤ 0 ∨ t > 80 then none else some t
    | none => none
  let storey2 : Option ℚ :=
    match storey1, storeys1 with
    | some s, some t => if s > t then none else some s
    | s, _ => s
  let rooms1 : Option ℚ :=
    match r.rooms with
    | some x => if x ≤ 0 ∨ x > 10 then none else some x
    | none => none
  { r with storey := storey2, storeys := storeys1, rooms := rooms1 }

/-- PRICE_OUTLIER_QUANTILE = 0.995. -/
def PRICE_OUTLIER_QUANTILE : ℚ := 995/1000

/-- The boolean mask of the price outlier filter: `price <= upper_price`,
which is False whenever the price or the quantile is NaN. -/
def priceKeep (upper : Option ℚ) (r : Row) : Bool :=
  match r.price, upper with
  | some p, some u => decide (p ≤ u)
  | _, _ => false

/-- `cleaned = cleaned[cleaned["price"] <= cleaned["price"].quantile(0.995)]`. -/
def priceFilter (rows : List Row) : List Row :=
  rows.filter (priceKeep (seriesQuantile (rows.map Row.price) PRICE_OUTLIER_QUANTILE))

/-- The mask of one AREA_RULES column in `_remove_area_outliers`:
`(isna | value >= min) & (isna | value <= quantile)`. -/
def areaKeep (get : Row → Option ℚ) (minV : ℚ) (upper : Option ℚ) (r : Row) : Bool :=
  match get r with
  | none => true
  | some a =>
      decide (minV ≤ a) &&
        (match upper with
         | some u => decide (a ≤ u)
         | none => false)

/-- One pass of `_remove_area_outliers` for one governed column: the
quantile is recomputed over the rows cleaned so far. -/
def areaFilterColumn (get : Row → Option ℚ) (minV q : ℚ) (rows : List Row) : List Row :=
  rows.filter (areaKeep get minV (seriesQuantile (rows.map get) q))

/-- DUPLICATE_KEYS = ["metro", "price", "total_area", "rooms"]; pandas
`drop_duplicates` treats missing markers as equal to each other, as the
`Option` equality here does. -/
def dupKey (r : Row) : String × Option ℚ × Option ℚ × Option ℚ :=
  (r.metro, r.price, r.total_area, r.rooms)

/-- `drop_duplicates(subset=DUPLICATE_KEYS, keep="first")`. -/
def dedupRows : List Row → List (String × Option ℚ × Option ℚ × Option ℚ) → List Row
  | [], _ => []
  | r :: rs, seen =>
      if dupKey r ∈ seen then dedupRows rs seen
      else r :: dedupRows rs (dupKey r :: seen)

/-- `fillna(median)` for the rooms column of one row. -/
def fillRooms (m : ℚ) (r : Row) : Row :=
  { r with rooms := some (r.rooms.getD m) }

/-- `fillna(median)` for the storey column of one row. -/
def fillStorey (m : ℚ) (r : Row) : Row :=
  { r with storey := some (r.storey.getD m) }

/-- `fillna(median)` for the storeys column of one row. -/
def fillStoreys (m : ℚ) (r : Row) : Row :=
  { r with storeys := some (r.storeys.getD m) }

/-- `cleaned["rooms"] = cleaned["rooms"].round().astype(int)`. -/
def roundRooms (r : Row) : Row :=
  { r with rooms := r.rooms.map (fun x => ((roundHalfEven x : ℤ) : ℚ)) }

/-- Apply a per-row rewrite to every row when the guarding column is
present, as the `if column not in cleaned: continue` guards do. -/
def condMap (c : Bool) (g : Row → Row) (rows : List Row) : List Row :=
  if c then rows.map g else rows

/-- The imputation block of `clean_dataframe` (lines 127-135): for each of
rooms, storey, storeys in that order, when the column is present, fill the
missing values with the column median (0 when the median is NaN); finally
round the rooms column to integers. -/
def imputeRows (f : Frame) (rows : List Row) : List Row :=
  let rows1 := condMap f.hasRooms
    (fillRooms ((seriesMedian (rows.map Row.rooms)).getD 0)) rows
  let rows2 := condMap f.hasStorey
    (fillStorey ((seriesMedian (rows1.map Row.storey)).getD 0)) rows1
  let rows3 := condMap f.hasStoreys
    (fillStoreys ((seriesMedian (rows2.map Row.storeys)).getD 0)) rows2
  rows3.map roundRooms

/-- Stage: `_normalize_provider(cleaned)` (skipped when the provider column
is absent). -/
def providerStage (f : Frame) : List Row :=
  if f.hasProvider then f.rows.map normalizeProviderRow else f.rows

/-- Stage: the floor / rooms nulling block applied to every row. -/
def floorStage (f : Frame) : List Row :=
  (providerStage f).map nullFloorsRow

/-- Stage: the price outlier filter. -/
def priceStage (f : Frame) : List Row :=
  priceFilter (floorStage f)

/-- Stage: AREA_RULES filter for total_area (min 10, quantile 0.995),
skipped when the column is absent. -/
def areaStageTotal (f : Frame) : List Row :=
  if f.hasTotalArea then areaFilterColumn Row.total_area 10 (995/1000) (priceStage f)
  else priceStage f

/-- Stage: AREA_RULES filter for living_area (min 8, quantile 0.995). -/
def areaStageLiving (f : Frame) : List Row :=
  if f.hasLivingArea then areaFilterColumn Row.living_area 8 (995/1000) (areaStageTotal f)
  else areaStageTotal f

/-- Stage: AREA_RULES filter for kitchen_area (min 4, quantile 0.995). -/
def areaStageKitchen (f : Frame) : List Row :=
  if f.hasKitchenArea then areaFilterColumn Row.kitchen_area 4 (995/1000) (areaStageLiving f)
  else areaStageLiving f

/-- Stage: duplicate removal. -/
def dedupStage (f : Frame) : List Row :=
  dedupRows (areaStageKitchen f) []

/-- Stage: imputation and rooms rounding. -/
def imputeStage (f : Frame) : List Row :=
  imputeRows f (dedupStage f)

/-- `clean_dataframe` from data_loader.py.  The unconditional column
accesses of the source (`cleaned["storey"]` at line 109, `["storeys"]` at
110, `["rooms"]` at 119, `["price"]` at 122, and the `drop_duplicates`
subset `["metro", "price", "total_area", "rooms"]` at 125) raise a pandas
`KeyError` when the column is absent, modelled as `Except.error`; the
provider, area-rule and imputation steps are guarded by column-presence
checks in the source and are skipped instead. -/
def clean_dataframe (f : Frame) : Except String Frame :=
  if f.hasStorey = false then Except.error "KeyError: storey"
  else if f.hasStoreys = false then Except.error "KeyError: storeys"
  else if f.hasRooms = false then Except.error "KeyError: rooms"
  else if f.hasPrice = false then Except.error "KeyError: price"
  else if f.hasMetro = false then Except.error "KeyError: drop_duplicates subset metro"
  else if f.hasTotalArea = false then Except.error "KeyError: drop_duplicates subset total_area"
  else Except.ok { f with rows := imputeStage f }

/-- The `dropna(subset=["price"])` step of `_load_raw_dataframe`. -/
def dropMissingPrice (f : Frame) : Frame :=
  { f with rows := f.rows.filter (fun r => r.price.isSome) }

/-- The empty dataframe with the full column schema present. -/
def emptyFrame : Frame :=
  { hasMetro := true, hasProvider := true, hasPrice := true, hasStorey := true,
    hasStoreys := true, hasRooms := true, hasTotalArea := true,
    hasLivingArea := true, hasKitchenArea := true, rows := [] }

/-!
Embedding of ml.py: the CSV row encoding (`parser`), the per-request
feature vector (`build_feature_vector_from_dict`), dataset path
resolution, and `evaluate_model`.
-/

/-- One CSV row / request dictionary for ml.py, with the schema
`id,city,price,minutes,way,rooms,total_area,storey,storeys,renovation,building_age_years`.
A numeric field is `none` when it is missing or `float(...)` cannot
convert it (a Python ValueError). -/
structure MlRow where
  price : Option ℚ
  minutes : Option ℚ
  way : String
  rooms : Option ℚ
  total_area : Option ℚ
  storey : Option ℚ
  storeys : Option ℚ
  renovation : Option ℚ
  building_age_years : Option ℚ
deriving DecidableEq, Repr

/-- The way_map dictionary: walk -> 0.0, car -> 1.0, transit -> 0.5;
lookup of any other token misses. -/
def way_map (s : String) : Option ℚ :=
  if s = "walk" then some 0
  else if s = "car" then some 1
  else if s = "transit" then some (1/2)
  else none

/-- The per-row feature encoding of `parser` (ml.py lines 43-53): the way
token is stripped, lower-cased and looked up with default 0.0, and the
eight numeric fields are converted with `float`, failing (`none`) when any
is missing or non-numeric. -/
def encodeRow (r : MlRow) : Option (List ℚ) :=
  let way : ℚ := (way_map (pyLower (pyStrip r.way))).getD 0
  match r.minutes, r.rooms, r.total_area, r.storey, r.storeys,
      r.renovation, r.building_age_years with
  | some m, some ro, some ta, some st, some sts, some ren, some bay =>
      some [m, way, ro, ta, st, sts, ren, bay]
  | _, _, _, _, _, _, _ => none

/-- One loop iteration of `parser` (lines 41-55): the label is
`float(row["price"])`, then the features are encoded; a conversion failure
anywhere raises, aborting the whole parse (`none`). -/
def parserRow (r : MlRow) : Option (List ℚ × ℚ) := do
  let label ← r.price
  let v ← encodeRow r
  some (v, label)

/-- `parser` (ml.py lines 22-59) after the CSV has been read into `rows`:
an empty file yields empty feature and label arrays; otherwise every row
is encoded and any conversion failure aborts the call. -/
def parser (rows : List MlRow) : Option (List (List ℚ) × List ℚ) :=
  if rows.isEmpty then some ([], [])
  else do
    let pairs ← rows.mapM parserRow
    some (pairs.map Prod.fst, pairs.map Prod.snd)

/-- `build_feature_vector_from_dict` (ml.py lines 85-99): the way token is
checked against way_map first, raising a ValueError naming the way field
when unrecognized; then each required field is converted with `float`,
raising when missing or non-numeric. -/
def build_feature_vector_from_dict (r : MlRow) : Except String (List ℚ) :=
  match way_map (pyLower (pyStrip r.way)) with
  | none => Except.error "way must be \"walk\", \"car\", or \"transit\""
  | some w =>
      match r.minutes with
      | none => Except.error "could not convert string to float: minutes"
      | some m =>
          match r.rooms with
          | none => Except.error "could not convert string to float: rooms"
          | some ro =>
              match r.total_area with
              | none => Except.error "could not convert string to float: total_area"
              | some ta =>
                  match r.storey with
                  | none => Except.error "could not convert string to float: storey"
                  | some st =>
                      match r.storeys with
                      | none => Except.error "could not convert string to float: storeys"
                      | some sts =>
                          match r.renovation with
                          | none => Except.error "could not convert string to float: renovation"
                          | some ren =>
                              match r.building_age_years with
                              | none => Except.error "could not convert string to float: building_age_years"
                              | some bay =>
                                  Except.ok [m, w, ro, ta, st, sts, ren, bay]

/-- The data a fitted model was trained on.  `train_from_csv` performs no
validation of its own between `parser` and `model.fit`; the sklearn fit
call itself is an external collaborator, so the trained artifact is
modelled by the matrices handed to it. -/
structure Fitted where
  data : List (List ℚ)
  labels : List ℚ
deriving DecidableEq, Repr

/-- `train_from_csv` (ml.py lines 102-109) up to the external
`model.fit`: parse the CSV rows and hand the arrays to the estimator
unchecked - there is no emptiness or length validation in the source. -/
def train_from_csv (rows : List MlRow) : Option Fitted :=
  (parser rows).map (fun dl => { data := dl.1, labels := dl.2 })

/-- Dataset path constants of ml.py (file names next to the module). -/
def SHORT_TRAIN_PATH : String := "clean_train_short.csv"

/-- Short-term test dataset path. -/
def SHORT_TEST_PATH : String := "clean_test_short.csv"

/-- Long-term train dataset path. -/
def LONG_TRAIN_PATH : String := "clean_train_long.csv"

/-- Long-term test dataset path. -/
def LONG_TEST_PATH : String := "clean_test_long.csv"

/-- Shared legacy train dataset path. -/
def LEGACY_TRAIN_PATH : String := "clean_train.csv"

/-- Shared legacy test dataset path. -/
def LEGACY_TEST_PATH : String := "clean_test.csv"

/-- The training path chosen by `train_short_term` (ml.py lines 112-119):
the explicit argument or the short-term default; when that path does not
exist and the legacy one does, the legacy path is substituted.  `ex` is
the file-existence predicate of the surrounding filesystem. -/
def train_short_term_path (ex : String → Bool) (train_path : Option String) : String :=
  let path := train_path.getD SHORT_TRAIN_PATH
  if ex path = false ∧ ex LEGACY_TRAIN_PATH = true then LEGACY_TRAIN_PATH else path

/-- The training path chosen by `train_long_term` (ml.py lines 122-129):
fall back to the legacy path unconditionally when the long-term path does
not exist. -/
def train_long_term_path (ex : String → Bool) (train_path : Option String) : String :=
  let path := train_path.getD LONG_TRAIN_PATH
  if ex path = false then LEGACY_TRAIN_PATH else path

/-- `dataset_paths_for_term` (ml.py lines 132-139). -/
def dataset_paths_for_term (ex : String → Bool) (term : String) : String × String :=
  if term = "short_term" then
    ((if ex SHORT_TRAIN_PATH then SHORT_TRAIN_PATH else LEGACY_TRAIN_PATH),
     (if ex SHORT_TEST_PATH then SHORT_TEST_PATH else LEGACY_TEST_PATH))
  else
    ((if ex LONG_TRAIN_PATH then LONG_TRAIN_PATH else LEGACY_TRAIN_PATH),
     (if ex LONG_TEST_PATH then LONG_TEST_PATH else LEGACY_TEST_PATH))

/-- `np.mean` of a list of rationals. -/
def npMean (xs : List ℚ) : ℚ :=
  xs.sum / (xs.length : ℚ)

/-- `evaluate_model` (ml.py lines 142-149): a missing model or zero-length
label vector short-circuits to `(0.0, 0.0)`; otherwise the model is
applied to every test row and the mean absolute error and the square root
of the mean squared error are returned.  The model is a per-row predict
function; the square root forces the second component into ℝ. -/
noncomputable def evaluate_model (model : Option (List ℚ → ℚ))
    (test_data : List (List ℚ)) (test_labels : List ℚ) : ℚ × ℝ :=
  match model with
  | none => (0, 0)
  | some m =>
      if test_labels.length = 0 then (0, 0)
      else
        let predictions := test_data.map m
        let errors := List.zipWith (fun a b => a - b) predictions test_labels
        let mae := npMean (errors.map (fun e => |e|))
        let msq := npMean (errors.map (fun e => e * e))
        (mae, Real.sqrt (msq : ℝ))

/-!
Concrete inputs used to evaluate the definitions above (counterexample
batches and witness data).
-/

/-- The tuple of row fields that the imputation block never writes. -/
def sideFields (r : Row) :
    Option ℚ × Option ℚ × Option ℚ × Option ℚ × Option ℚ × String :=
  (r.price, r.total_area, r.living_area, r.kitchen_area, r.minutes, r.metro)

/-- A fully valid listing row with the given metro name and price. -/
def sampleRow (metro : String) (p : ℚ) : Row :=
  { metro := metro, provider := "owner", price := some p, minutes := some 5,
    fee_percent := some 0, views := some 10, storey := some 2, storeys := some 5,
    rooms := some 2, total_area := some 40, living_area := some 20,
    kitchen_area := some 10 }

/-- Three valid rows whose prices 0, 100, 1000 are spread out, so the
0.995 price quantile of the batch (991) cuts off the most expensive row. -/
def spreadPricesFrame : Frame :=
  { emptyFrame with
    rows := [sampleRow "a" 0, sampleRow "b" 100, sampleRow "c" 1000] }

/-- What `clean_dataframe` makes of `spreadPricesFrame`: the price-1000
row is dropped, everything else is unchanged. -/
def spreadPricesCleaned : Frame :=
  { emptyFrame with rows := [sampleRow "a" 0, sampleRow "b" 100] }

/-- A single row that is valid except for a missing minutes cell. -/
def missingMinutesRow : Row :=
  { sampleRow "m" 50 with minutes := none }

/-- A one-row batch whose only row has a missing minutes value. -/
def missingMinutesFrame : Frame :=
  { emptyFrame with rows := [missingMinutesRow] }

/-- A nonempty batch from which the storey column is entirely absent. -/
def noStoreyFrame : Frame :=
  { emptyFrame with hasStorey := false, rows := [sampleRow "m" 50] }

/-- A batch without the provider, living_area and kitchen_area columns
(the columns whose cleaning steps are skip-guarded in the source). -/
def skippableColumnsFrame : Frame :=
  { emptyFrame with
    hasProvider := false
    hasLivingArea := false
    hasKitchenArea := false
    rows := [sampleRow "m" 50] }

/-- The encoding scenario from the specification: minutes 15, way car,
rooms 2, total_area 45, storey 3, storeys 9, renovation 1, age 10. -/
def scenarioMlRow : MlRow :=
  { price := some 50000, minutes := some 15, way := "car", rooms := some 2,
    total_area := some 45, storey := some 3, storeys := some 9,
    renovation := some 1, building_age_years := some 10 }

/-- The same attributes with an unrecognized commute-mode token. -/
def unknownWayMlRow : MlRow :=
  { scenarioMlRow with way := "bike" }

/-- A filesystem in which only the legacy dataset files exist. -/
def legacyOnlyFs (p : String) : Bool :=
  p == LEGACY_TRAIN_PATH || p == LEGACY_TEST_PATH

deriving instance DecidableEq for Except

/-!
Helper lemmas about the cleaning stages.
-/

theorem mem_of_mem_dedupRows :
    ∀ (rows : List Row) (seen : List (String × Option ℚ × Option ℚ × Option ℚ))
      (r : Row), r ∈ dedupRows rows seen → r ∈ rows := by
  intro rows
  induction rows with
  | nil => intro seen r h; simp [dedupRows] at h
  | cons a rs ih =>
      intro seen r h
      unfold dedupRows at h
      split at h
      · exact List.mem_cons_of_mem _ (ih _ _ h)
      · rcases List.mem_cons.mp h with h | h
        · exact h ▸ List.mem_cons_self _ _
        · exact List.mem_cons_of_mem _ (ih _ _ h)

theorem length_dedupRows_le :
    ∀ (rows : List Row) (seen : List (String × Option ℚ × Option ℚ × Option ℚ)),
      (dedupRows rows seen).length ≤ rows.length := by
  intro rows
  induction rows with
  | nil => intro seen; simp [dedupRows]
  | cons a rs ih =>
      intro seen
      unfold dedupRows
      split
      · exact Nat.le_trans (ih _) (Nat.le_succ _)
      · simpa using Nat.succ_le_succ (ih _)

theorem length_condMap (c : Bool) (g : Row → Row) (rows : List Row) :
    (condMap c g rows).length = rows.length := by
  unfold condMap; split <;> simp

theorem length_imputeRows (f : Frame) (rows : List Row) :
    (imputeRows f rows).length = rows.length := by
  unfold imputeRows
  simp [length_condMap]

theorem mem_condMap_preserved {c : Bool} {g : Row → Row} {rows : List Row} {r : Row}
    (h : r ∈ condMap c g rows) (hg : ∀ x, sideFields (g x) = sideFields x) :
    ∃ r₀ ∈ rows, sideFields r = sideFields r₀ := by
  unfold condMap at h
  split at h
  · obtain ⟨r₀, h₀, rfl⟩ := List.mem_map.mp h
    exact ⟨r₀, h₀, hg r₀⟩
  · exact ⟨r, h, rfl⟩

theorem sideFields_imputeRows {f : Frame} {rows : List Row} {r : Row}
    (h : r ∈ imputeRows f rows) : ∃ r₀ ∈ rows, sideFields r = sideFields r₀ := by
  unfold imputeRows at h
  obtain ⟨r3, h3, rfl⟩ := List.mem_map.mp h
  obtain ⟨r2, h2, e2⟩ := mem_condMap_preserved h3 (fun x => rfl)
  obtain ⟨r1, h1, e1⟩ := mem_condMap_preserved h2 (fun x => rfl)
  obtain ⟨r0, h0, e0⟩ := mem_condMap_preserved h1 (fun x => rfl)
  exact ⟨r0, h0, by rw [show sideFields (roundRooms r3) = sideFields r3 from rfl, e2, e1, e0]⟩

theorem imputeRows_filled {f : Frame} {rows : List Row} {r : Row}
    (hR : f.hasRooms = true) (hS : f.hasStorey = true) (hT : f.hasStoreys = true)
    (h : r ∈ imputeRows f rows) :
    r.rooms.isSome = true ∧ r.storey.isSome = true ∧ r.storeys.isSome = true := by
  unfold imputeRows condMap at h
  rw [hR, hS, hT] at h
  simp only [if_true] at h
  obtain ⟨r3, h3, rfl⟩ := List.mem_map.mp h
  obtain ⟨r2, h2, rfl⟩ := List.mem_map.mp h3
  obtain ⟨r1, h1, rfl⟩ := List.mem_map.mp h2
  obtain ⟨r0, h0, rfl⟩ := List.mem_map.mp h1
  exact ⟨rfl, rfl, rfl⟩

theorem priceKeep_eq_true {upper : Option ℚ} {r : Row} (h : priceKeep upper r = true) :
    ∃ p u, r.price = some p ∧ upper = some u ∧ p ≤ u := by
  unfold priceKeep at h
  cases hp : r.price with
  | none => rw [hp] at h; cases upper <;> simp at h
  | some p =>
      cases hu : upper with
      | none => rw [hp, hu] at h; simp at h
      | some u =>
          rw [hp, hu] at h
          exact ⟨p, u, rfl, rfl, of_decide_eq_true h⟩

theorem areaFilterColumn_mem {get : Row → Option ℚ} {minV q : ℚ} {rows : List Row}
    {r : Row} (h : r ∈ areaFilterColumn get minV q rows) :
    r ∈ rows ∧ ∀ a, get r = some a →
      minV ≤ a ∧ ∃ u, seriesQuantile (rows.map get) q = some u ∧ a ≤ u := by
  obtain ⟨hmem, hkeep⟩ := List.mem_filter.mp h
  refine ⟨hmem, fun a ha => ?_⟩
  unfold areaKeep at hkeep
  rw [ha] at hkeep
  cases hu : seriesQuantile (rows.map get) q with
  | none => rw [hu] at hkeep; simp at hkeep
  | some u =>
      rw [hu] at hkeep
      simp only [Bool.and_eq_true, decide_eq_true_eq] at hkeep
      exact ⟨hkeep.1, u, rfl, hkeep.2⟩

theorem mem_priceStage {f : Frame} {r : Row} (h : r ∈ priceStage f) :
    r ∈ floorStage f ∧
      priceKeep (seriesQuantile ((floorStage f).map Row.price) PRICE_OUTLIER_QUANTILE) r
        = true :=
  List.mem_filter.mp h

theorem mem_areaStageTotal {f : Frame} {r : Row} (h : r ∈ areaStageTotal f) :
    r ∈ priceStage f := by
  unfold areaStageTotal at h
  split at h
  · exact (areaFilterColumn_mem h).1
  · exact h

theorem mem_areaStageLiving {f : Frame} {r : Row} (h : r ∈ areaStageLiving f) :
    r ∈ areaStageTotal f := by
  unfold areaStageLiving at h
  split at h
  · exact (areaFilterColumn_mem h).1
  · exact h

theorem mem_areaStageKitchen {f : Frame} {r : Row} (h : r ∈ areaStageKitchen f) :
    r ∈ areaStageLiving f := by
  unfold areaStageKitchen at h
  split at h
  · exact (areaFilterColumn_mem h).1
  · exact h

theorem areaStageTotal_bound {f : Frame} {r : Row} (hTA : f.hasTotalArea = true)
    (h : r ∈ areaStageTotal f) :
    ∀ a, r.total_area = some a → 10 ≤ a ∧
      ∃ u, seriesQuantile ((priceStage f).map Row.total_area) (995/1000) = some u ∧
        a ≤ u := by
  unfold areaStageTotal at h
  rw [hTA] at h
  simp only [if_true] at h
  exact (areaFilterColumn_mem h).2

theorem areaStageLiving_bound {f : Frame} {r : Row} (hLA : f.hasLivingArea = true)
    (h : r ∈ areaStageLiving f) :
    ∀ a, r.living_area = some a → 8 ≤ a ∧
      ∃ u, seriesQuantile ((areaStageTotal f).map Row.living_area) (995/1000) = some u ∧
        a ≤ u := by
  unfold areaStageLiving at h
  rw [hLA] at h
  simp only [if_true] at h
  exact (areaFilterColumn_mem h).2

theorem areaStageKitchen_bound {f : Frame} {r : Row} (hKA : f.hasKitchenArea = true)
    (h : r ∈ areaStageKitchen f) :
    ∀ a, r.kitchen_area = some a → 4 ≤ a ∧
      ∃ u, seriesQuantile ((areaStageLiving f).map Row.kitchen_area) (995/1000) = some u ∧
        a ≤ u := by
  unfold areaStageKitchen at h
  rw [hKA] at h
  simp only [if_true] at h
  exact (areaFilterColumn_mem h).2

theorem map_price_floorStage (f : Frame) :
    (floorStage f).map Row.price = f.rows.map Row.price := by
  unfold floorStage providerStage
  split
  · rw [List.map_map, List.map_map]
    exact List.map_congr_left (fun r _ => rfl)
  · rw [List.map_map]
    exact List.map_congr_left (fun r _ => rfl)

theorem clean_dataframe_ok {f g : Frame} (h : clean_dataframe f = Except.ok g) :
    f.hasStorey = true ∧ f.hasStoreys = true ∧ f.hasRooms = true ∧
      f.hasPrice = true ∧ f.hasMetro = true ∧ f.hasTotalArea = true ∧
      g = { f with rows := imputeStage f } := by
  unfold clean_dataframe at h
  split at h
  · exact absurd h (by simp)
  next h1 =>
    split at h
    · exact absurd h (by simp)
    next h2 =>
      split at h
      · exact absurd h (by simp)
      next h3 =>
        split at h
        · exact absurd h (by simp)
        next h4 =>
          split at h
          · exact absurd h (by simp)
          next h5 =>
            split at h
            · exact absurd h (by simp)
            next h6 =>
              refine ⟨Bool.of_not_eq_false h1, Bool.of_not_eq_false h2,
                Bool.of_not_eq_false h3, Bool.of_not_eq_false h4,
                Bool.of_not_eq_false h5, Bool.of_not_eq_false h6, ?_⟩
              exact (Except.ok.injEq _ _).mp h.symm

theorem length_floorStage (f : Frame) : (floorStage f).length = f.rows.length := by
  unfold floorStage providerStage
  split <;> simp

theorem length_priceStage_le (f : Frame) :
    (priceStage f).length ≤ (floorStage f).length :=
  List.length_filter_le _ _

theorem length_areaStageTotal_le (f : Frame) :
    (areaStageTotal f).length ≤ (priceStage f).length := by
  unfold areaStageTotal
  split
  · exact List.length_filter_le _ _
  · exact Nat.le_refl _

theorem length_areaStageLiving_le (f : Frame) :
    (areaStageLiving f).length ≤ (areaStageTotal f).length := by
  unfold areaStageLiving
  split
  · exact List.length_filter_le _ _
  · exact Nat.le_refl _

theorem length_areaStageKitchen_le (f : Frame) :
    (areaStageKitchen f).length ≤ (areaStageLiving f).length := by
  unfold areaStageKitchen
  split
  · exact List.length_filter_le _ _
  · exact Nat.le_refl _

/-!
Claim theorems for the ml.py side.
-/

/-- C1: for every attribute set in which all eight required fields
(minutes, way, rooms, total_area, storey, storeys, renovation,
building_age_years) are present and numerically convertible and the
commute-mode token is recognized by way_map, the per-row encoding of the
bulk `parser` path and the live `build_feature_vector_from_dict` path
produce the identical fixed-order 8-element feature vector. -/
theorem c1_bulk_and_live_encoding_agree (r : MlRow) (m ro ta st sts ren bay w : ℚ)
    (hm : r.minutes = some m) (hro : r.rooms = some ro) (hta : r.total_area = some ta)
    (hst : r.storey = some st) (hsts : r.storeys = some sts)
    (hren : r.renovation = some ren) (hbay : r.building_age_years = some bay)
    (hw : way_map (pyLower (pyStrip r.way)) = some w) :
    encodeRow r = some [m, w, ro, ta, st, sts, ren, bay] ∧
    build_feature_vector_from_dict r = Except.ok [m, w, ro, ta, st, sts, ren, bay] := by
  constructor
  · unfold encodeRow
    rw [hm, hro, hta, hst, hsts, hren, hbay, hw]
    rfl
  · unfold build_feature_vector_from_dict
    rw [hw, hm, hro, hta, hst, hsts, hren, hbay]

/-- Witness for C1 at the specification encoding scenario. -/
theorem c1_bulk_and_live_encoding_agree_witness :
    (scenarioMlRow.minutes = some 15 ∧ scenarioMlRow.rooms = some 2 ∧
     scenarioMlRow.total_area = some 45 ∧ scenarioMlRow.storey = some 3 ∧
     scenarioMlRow.storeys = some 9 ∧ scenarioMlRow.renovation = some 1 ∧
     scenarioMlRow.building_age_years = some 10 ∧
     way_map (pyLower (pyStrip scenarioMlRow.way)) = some 1) ∧
    encodeRow scenarioMlRow = some [15, 1, 2, 45, 3, 9, 1, 10] ∧
    build_feature_vector_from_dict scenarioMlRow = Except.ok [15, 1, 2, 45, 3, 9, 1, 10] :=
  ⟨⟨rfl, rfl, rfl, rfl, rfl, rfl, rfl, by decide⟩,
   c1_bulk_and_live_encoding_agree scenarioMlRow 15 2 45 3 9 1 10 1
     rfl rfl rfl rfl rfl rfl rfl (by decide)⟩

/-- C6: a row or request whose commute-mode token is unrecognized is kept
by the bulk path with the default code 0.0 in the way slot, while the live
path rejects it with a ValueError naming the way field. -/
theorem c6_unknown_way_token (r : MlRow) (L m ro ta st sts ren bay : ℚ)
    (hw : way_map (pyLower (pyStrip r.way)) = none)
    (hp : r.price = some L)
    (hm : r.minutes = some m) (hro : r.rooms = some ro) (hta : r.total_area = some ta)
    (hst : r.storey = some st) (hsts : r.storeys = some sts)
    (hren : r.renovation = some ren) (hbay : r.building_age_years = some bay) :
    parserRow r = some ([m, 0, ro, ta, st, sts, ren, bay], L) ∧
    build_feature_vector_from_dict r =
      Except.error "way must be \"walk\", \"car\", or \"transit\"" := by
  constructor
  · unfold parserRow encodeRow
    rw [hp, hm, hro, hta, hst, hsts, hren, hbay, hw]
    rfl
  · unfold build_feature_vector_from_dict
    rw [hw]

/-- Witness for C6 at a concrete row with way token "bike". -/
theorem c6_unknown_way_token_witness :
    (way_map (pyLower (pyStrip unknownWayMlRow.way)) = none ∧
     unknownWayMlRow.price = some 50000 ∧ unknownWayMlRow.minutes = some 15 ∧
     unknownWayMlRow.rooms = some 2 ∧ unknownWayMlRow.total_area = some 45 ∧
     unknownWayMlRow.storey = some 3 ∧ unknownWayMlRow.storeys = some 9 ∧
     unknownWayMlRow.renovation = some 1 ∧
     unknownWayMlRow.building_age_years = some 10) ∧
    parserRow unknownWayMlRow = some ([15, 0, 2, 45, 3, 9, 1, 10], 50000) ∧
    build_feature_vector_from_dict unknownWayMlRow =
      Except.error "way must be \"walk\", \"car\", or \"transit\"" :=
  ⟨⟨by decide, rfl, rfl, rfl, rfl, rfl, rfl, rfl, rfl⟩,
   c6_unknown_way_token unknownWayMlRow 50000 15 2 45 3 9 1 10
     (by decide) rfl rfl rfl rfl rfl rfl rfl rfl⟩

/-- C7 counterexample: on the empty batch, the training path of the
source raises no error and constructs no InsufficientDataError (no such
error exists in the code): `parser` returns empty arrays and
`train_from_csv` hands them to the external estimator unchecked. -/
theorem c7_no_insufficient_data_error_on_empty_batch :
    parser [] = some ([], []) ∧ train_from_csv [] = some { data := [], labels := [] } :=
  ⟨rfl, rfl⟩

/-- C7 amended: `parser` builds the feature matrix and the label vector in
lockstep, so their lengths are always equal (a mismatched training batch
cannot arise), and `train_from_csv` performs no emptiness validation of
its own. -/
theorem c7_parser_lengths_align (rows : List MlRow) (out : List (List ℚ) × List ℚ)
    (h : parser rows = some out) : out.1.length = out.2.length := by
  unfold parser at h
  split at h
  · cases h
    rfl
  · cases hp : rows.mapM parserRow with
    | none => rw [hp] at h; cases h
    | some pairs =>
        rw [hp] at h
        cases h
        simp

/-- Witness for C7 at a concrete one-row batch. -/
theorem c7_parser_lengths_align_witness :
    parser [scenarioMlRow] = some ([[15, 1, 2, 45, 3, 9, 1, 10]], [50000]) ∧
    ([[(15 : ℚ), 1, 2, 45, 3, 9, 1, 10]].length = [(50000 : ℚ)].length) :=
  ⟨by decide,
   c7_parser_lengths_align [scenarioMlRow] ([[15, 1, 2, 45, 3, 9, 1, 10]], [50000])
     (by decide)⟩

/-- C8: when the short_term dataset paths do not exist and the legacy
train path does, both the training path choice and the dataset-path
resolution for "short_term" substitute the legacy paths. -/
theorem c8_short_term_legacy_fallback (ex : String → Bool)
    (hTrain : ex SHORT_TRAIN_PATH = false)
    (hTest : ex SHORT_TEST_PATH = false)
    (hLegacy : ex LEGACY_TRAIN_PATH = true) :
    train_short_term_path ex none = LEGACY_TRAIN_PATH ∧
    dataset_paths_for_term ex "short_term" = (LEGACY_TRAIN_PATH, LEGACY_TEST_PATH) := by
  constructor
  · unfold train_short_term_path
    simp [hTrain, hLegacy]
  · unfold dataset_paths_for_term
    simp [hTrain, hTest]

/-- Witness for C8 on the filesystem that holds only the legacy files. -/
theorem c8_short_term_legacy_fallback_witness :
    (legacyOnlyFs SHORT_TRAIN_PATH = false ∧ legacyOnlyFs SHORT_TEST_PATH = false ∧
     legacyOnlyFs LEGACY_TRAIN_PATH = true) ∧
    train_short_term_path legacyOnlyFs none = LEGACY_TRAIN_PATH ∧
    dataset_paths_for_term legacyOnlyFs "short_term" =
      (LEGACY_TRAIN_PATH, LEGACY_TEST_PATH) :=
  ⟨⟨rfl, rfl, rfl⟩, c8_short_term_legacy_fallback legacyOnlyFs rfl rfl rfl⟩

/-- C10: a missing model yields exactly (0.0, 0.0) from evaluate_model for
every test dataset and every label vector, including nonempty ones. -/
theorem c10_missing_model_zero_metrics (test_data : List (List ℚ)) (test_labels : List ℚ) :
    evaluate_model none test_data test_labels = (0, 0) := rfl

/-- C9: for every fitted model, a zero-length held-out label vector yields
exactly (0, 0), and a nonempty one (paired with a test set of the same
length) yields the mean absolute error and the root of the mean squared
error between the predictions and the labels. -/
theorem c9_evaluate_mae_rmse (m : List ℚ → ℚ) (d : List (List ℚ)) (l : List ℚ)
    (hne : l ≠ []) (hlen : d.length = l.length) :
    evaluate_model (some m) d [] = (0, 0) ∧
    evaluate_model (some m) d l =
      (npMean (((d.map m).zip l).map (fun p => |p.1 - p.2|)),
       Real.sqrt ((npMean (((d.map m).zip l).map (fun p => (p.1 - p.2) ^ 2)) : ℚ) : ℝ)) := by
  refine ⟨rfl, ?_⟩
  show (if l.length = 0 then ((0 : ℚ), (0 : ℝ))
    else
      (npMean ((List.zipWith (fun a b => a - b) (d.map m) l).map (fun e => |e|)),
       Real.sqrt ((npMean ((List.zipWith (fun a b => a - b) (d.map m) l).map
         (fun e => e * e)) : ℚ) : ℝ))) = _
  rw [if_neg (by simpa using hne)]
  have hz : List.zipWith (fun a b => a - b) (d.map m) l =
      ((d.map m).zip l).map (fun p => p.1 - p.2) := by
    rw [← List.map_uncurry_zip_eq_zipWith]
    rfl
  rw [hz, List.map_map, List.map_map]
  have hsq : ((d.map m).zip l).map ((fun e => e * e) ∘ (fun p : ℚ × ℚ => p.1 - p.2)) =
      ((d.map m).zip l).map (fun p => (p.1 - p.2) ^ 2) :=
    List.map_congr_left (fun p _ => by simp [Function.comp, pow_two])
  rw [hsq]
  rfl

/-- Witness for C9 at a one-row test set: the constant-5 model against the
label 2 gives error 3, so mae = 3 and rmse = sqrt 9. -/
theorem c9_evaluate_mae_rmse_witness :
    (([(2 : ℚ)] ≠ []) ∧ ([[(0 : ℚ)]].length = [(2 : ℚ)].length)) ∧
    evaluate_model (some (fun _ => 5)) [[0]] [] = (0, 0) ∧
    evaluate_model (some (fun _ => 5)) [[0]] [2] = (3, Real.sqrt 9) := by
  have h := c9_evaluate_mae_rmse (fun _ => 5) [[0]] [2] (by decide) rfl
  refine ⟨⟨by decide, rfl⟩, h.1, ?_⟩
  rw [h.2]
  norm_num [npMean, List.zip, List.zipWith]

/-!
Claim theorems for the data_loader.py side.
-/

/-- C2 amended: after cleaning, every surviving record has a present price
and the three imputed columns rooms, storey, storeys are filled; the other
numeric feature columns are not imputed by this code and may keep missing
markers. -/
theorem c2_price_and_imputed_columns_filled (f g : Frame)
    (h : clean_dataframe (dropMissingPrice f) = Except.ok g) :
    ∀ r ∈ g.rows, r.price.isSome = true ∧ r.rooms.isSome = true ∧
      r.storey.isSome = true ∧ r.storeys.isSome = true := by
  obtain ⟨hS, hT, hR, hP, hM, hTA, hg⟩ := clean_dataframe_ok h
  subst hg
  intro r hr
  have hr' : r ∈ imputeRows (dropMissingPrice f) (dedupStage (dropMissingPrice f)) := hr
  have filled := imputeRows_filled hR hS hT hr'
  obtain ⟨r₀, hr₀, hside⟩ := sideFields_imputeRows hr'
  have hK : r₀ ∈ areaStageKitchen (dropMissingPrice f) := mem_of_mem_dedupRows _ _ _ hr₀
  have hPs : r₀ ∈ priceStage (dropMissingPrice f) :=
    mem_areaStageTotal (mem_areaStageLiving (mem_areaStageKitchen hK))
  obtain ⟨_, hkeep⟩ := mem_priceStage hPs
  obtain ⟨p, u, hp, hu, hpu⟩ := priceKeep_eq_true hkeep
  have hpr : r.price = r₀.price := congrArg Prod.fst hside
  refine ⟨?_, filled.1, filled.2.1, filled.2.2⟩
  rw [hpr, hp]
  rfl

/-- C4: every row of the cleaned output has a price bounded by the 0.995
price quantile of the input batch, and every present value of a governed
area column lies in its configured [min, quantile] band, the quantile
being computed over the batch as cleaned so far. -/
theorem c4_outlier_quantile_bands (f g : Frame) (hg : clean_dataframe f = Except.ok g) :
    ∀ r ∈ g.rows,
      (∃ p u, r.price = some p ∧
        seriesQuantile (f.rows.map Row.price) PRICE_OUTLIER_QUANTILE = some u ∧
        p ≤ u) ∧
      (∀ a, r.total_area = some a → 10 ≤ a ∧
        ∃ u, seriesQuantile ((priceStage f).map Row.total_area) (995/1000) = some u ∧
          a ≤ u) ∧
      (f.hasLivingArea = true → ∀ a, r.living_area = some a → 8 ≤ a ∧
        ∃ u, seriesQuantile ((areaStageTotal f).map Row.living_area) (995/1000) = some u ∧
          a ≤ u) ∧
      (f.hasKitchenArea = true → ∀ a, r.kitchen_area = some a → 4 ≤ a ∧
        ∃ u, seriesQuantile ((areaStageLiving f).map Row.kitchen_area) (995/1000) = some u ∧
          a ≤ u) := by
  obtain ⟨hS, hT, hR, hP, hM, hTA, hgE⟩ := clean_dataframe_ok hg
  subst hgE
  intro r hr
  have hr' : r ∈ imputeRows f (dedupStage f) := hr
  obtain ⟨r₀, hr₀, hside⟩ := sideFields_imputeRows hr'
  have hpr : r.price = r₀.price := congrArg Prod.fst hside
  have hta : r.total_area = r₀.total_area := congrArg (fun t => t.2.1) hside
  have hla : r.living_area = r₀.living_area := congrArg (fun t => t.2.2.1) hside
  have hka : r.kitchen_area = r₀.kitchen_area := congrArg (fun t => t.2.2.2.1) hside
  have hK : r₀ ∈ areaStageKitchen f := mem_of_mem_dedupRows _ _ _ hr₀
  have hL : r₀ ∈ areaStageLiving f := mem_areaStageKitchen hK
  have hTt : r₀ ∈ areaStageTotal f := mem_areaStageLiving hL
  have hPs : r₀ ∈ priceStage f := mem_areaStageTotal hTt
  refine ⟨?_, ?_, ?_, ?_⟩
  · obtain ⟨_, hkeep⟩ := mem_priceStage hPs
    obtain ⟨p, u, hp, hu, hpu⟩ := priceKeep_eq_true hkeep
    refine ⟨p, u, by rw [hpr]; exact hp, ?_, hpu⟩
    rw [← map_price_floorStage f]
    exact hu
  · intro a ha
    exact areaStageTotal_bound hTA hTt a (hta.symm.trans ha)
  · intro hLA a ha
    exact areaStageLiving_bound hLA hL a (hla.symm.trans ha)
  · intro hKA a ha
    exact areaStageKitchen_bound hKA hK a (hka.symm.trans ha)

/-- C3 amended (the provable remainder): cleaning never adds rows - the
output row count is at most the input row count. -/
theorem c3_clean_never_adds_rows (f g : Frame) (h : clean_dataframe f = Except.ok g) :
    g.rows.length ≤ f.rows.length := by
  obtain ⟨_, _, _, _, _, _, hg⟩ := clean_dataframe_ok h
  subst hg
  calc (imputeStage f).length
      = (dedupStage f).length := length_imputeRows f _
    _ ≤ (areaStageKitchen f).length := length_dedupRows_le _ _
    _ ≤ (areaStageLiving f).length := length_areaStageKitchen_le f
    _ ≤ (areaStageTotal f).length := length_areaStageLiving_le f
    _ ≤ (priceStage f).length := length_areaStageTotal_le f
    _ ≤ (floorStage f).length := length_priceStage_le f
    _ = f.rows.length := length_floorStage f

/-- C5 amended (the provable remainder): an empty batch with the schema
columns present cleans to itself, and the presence of storey, storeys,
rooms, price, metro and total_area is enough for clean_dataframe to
succeed (provider, living_area and kitchen_area may be absent: their steps
are skipped). -/
theorem c5_empty_ok_and_required_columns_suffice :
    clean_dataframe emptyFrame = Except.ok emptyFrame ∧
    ∀ f : Frame, f.hasStorey = true → f.hasStoreys = true → f.hasRooms = true →
      f.hasPrice = true → f.hasMetro = true → f.hasTotalArea = true →
      clean_dataframe f = Except.ok { f with rows := imputeStage f } := by
  constructor
  · decide
  · intro f h1 h2 h3 h4 h5 h6
    unfold clean_dataframe
    rw [h1, h2, h3, h4, h5, h6]
    rfl

section

attribute [local semireducible] Rat.add Rat.mul Rat.inv Rat.sub Rat.ofScientific

/-- C2 counterexample: a surviving record can keep a missing marker in the
numeric feature column minutes, because the imputation loop only covers
rooms, storey and storeys. -/
theorem c2_minutes_missing_after_cleaning :
    clean_dataframe (dropMissingPrice missingMinutesFrame) = Except.ok missingMinutesFrame ∧
    missingMinutesFrame.rows.any (fun r => r.minutes.isNone) = true := by
  constructor
  · decide
  · decide

/-- Witness for C2 at the three-row batch with spread-out prices. -/
theorem c2_price_and_imputed_columns_filled_witness :
    clean_dataframe (dropMissingPrice spreadPricesFrame) = Except.ok spreadPricesCleaned ∧
    ∀ r ∈ spreadPricesCleaned.rows, r.price.isSome = true ∧ r.rooms.isSome = true ∧
      r.storey.isSome = true ∧ r.storeys.isSome = true :=
  ⟨by decide,
   c2_price_and_imputed_columns_filled spreadPricesFrame spreadPricesCleaned (by decide)⟩

/-- C3 counterexample: cleaning is not idempotent - recleaning the cleaned
three-row batch recomputes the 0.995 price quantile over the two surviving
rows and drops another row. -/
theorem c3_recleaning_changes_the_batch :
    Except.bind (clean_dataframe spreadPricesFrame) clean_dataframe ≠
      clean_dataframe spreadPricesFrame := by decide

/-- Witness for C3 at the three-row batch. -/
theorem c3_clean_never_adds_rows_witness :
    clean_dataframe spreadPricesFrame = Except.ok spreadPricesCleaned ∧
    spreadPricesCleaned.rows.length ≤ spreadPricesFrame.rows.length :=
  ⟨by decide,
   c3_clean_never_adds_rows spreadPricesFrame spreadPricesCleaned (by decide)⟩

/-- Witness for C4 at the one-row batch (price quantile of a single price
is that price, and each area band degenerates to the single value). -/
theorem c4_outlier_quantile_bands_witness :
    (clean_dataframe missingMinutesFrame = Except.ok missingMinutesFrame ∧
     missingMinutesRow ∈ missingMinutesFrame.rows) ∧
    ((∃ p u, missingMinutesRow.price = some p ∧
        seriesQuantile (missingMinutesFrame.rows.map Row.price) PRICE_OUTLIER_QUANTILE
          = some u ∧ p ≤ u) ∧
     (∀ a, missingMinutesRow.total_area = some a → 10 ≤ a ∧
        ∃ u, seriesQuantile ((priceStage missingMinutesFrame).map Row.total_area)
          (995/1000) = some u ∧ a ≤ u) ∧
     (missingMinutesFrame.hasLivingArea = true →
      ∀ a, missingMinutesRow.living_area = some a → 8 ≤ a ∧
        ∃ u, seriesQuantile ((areaStageTotal missingMinutesFrame).map Row.living_area)
          (995/1000) = some u ∧ a ≤ u) ∧
     (missingMinutesFrame.hasKitchenArea = true →
      ∀ a, missingMinutesRow.kitchen_area = some a → 4 ≤ a ∧
        ∃ u, seriesQuantile ((areaStageLiving missingMinutesFrame).map Row.kitchen_area)
          (995/1000) = some u ∧ a ≤ u)) :=
  ⟨⟨by decide, by decide⟩,
   c4_outlier_quantile_bands missingMinutesFrame missingMinutesFrame (by decide)
     missingMinutesRow (by decide)⟩

/-- C5 counterexample: a nonempty batch without the storey column makes
clean_dataframe raise a KeyError instead of skipping the floor checks. -/
theorem c5_absent_storey_column_raises :
    clean_dataframe noStoreyFrame = Except.error "KeyError: storey" := by decide

/-- Witness for C5 at a batch missing only skip-guarded columns. -/
theorem c5_empty_ok_and_required_columns_suffice_witness :
    (skippableColumnsFrame.hasStorey = true ∧ skippableColumnsFrame.hasStoreys = true ∧
     skippableColumnsFrame.hasRooms = true ∧ skippableColumnsFrame.hasPrice = true ∧
     skippableColumnsFrame.hasMetro = true ∧ skippableColumnsFrame.hasTotalArea = true) ∧
    clean_dataframe skippableColumnsFrame =
      Except.ok { skippableColumnsFrame with rows := imputeStage skippableColumnsFrame } :=
  ⟨⟨rfl, rfl, rfl, rfl, rfl, rfl⟩,
   c5_empty_ok_and_required_columns_suffice.2 skippableColumnsFrame rfl rfl rfl rfl rfl rfl⟩

end
